import Mathlib

set_option maxHeartbeats 1000000
set_option maxRecDepth 10000

/- Shallow embedding of src/main.c, the MSP432 dashboard controller of the GVSU
   Laker Racing car.  GPIO ports and interrupt-flag registers are modelled as
   natural numbers holding byte values; the C bitwise operators are mirrored
   directly, a one-byte complement (~m on an 8-bit register) being written as
   xor with 255. -/

/-- Lightstrip value settings from the defines at the top of main.c. -/
def BRIGHTNESS : Nat := 3

/-- Number of green LEDs in the strip (main.c line 29). -/
def NUM_GREEN_LEDS : Nat := 18

/-- Number of yellow LEDs in the strip (main.c line 30). -/
def NUM_YELLOW_LEDS : Nat := 6

/-- Number of red LEDs in the strip (main.c line 31). -/
def NUM_RED_LEDS : Nat := 6

/-- Total strip length (main.c line 32): 18 + 6 + 6 = 30. -/
def NUM_LEDS : Nat := NUM_GREEN_LEDS + NUM_YELLOW_LEDS + NUM_RED_LEDS

/-- Maximum RPM constant (main.c line 33). -/
def MAX_RPM : Nat := 12000

/-- Segments-to-turn-on masks for digits 0-9 (main.c line 55). -/
def gearON : List Nat := [0x77, 0x05, 0xB3, 0xA7, 0xC5, 0xE6, 0xF6, 0x07, 0xF7, 0xE7]

/-- Segments-to-turn-off masks for digits 0-9 (main.c line 56). -/
def gearOFF : List Nat := [0x88, 0xFA, 0x4C, 0x58, 0x3A, 0x19, 0x09, 0xF8, 0x08, 0x18]

/-- The mutable state touched by the gear/relay logic: relay output port P8OUT
    (bits 4 and 5 are the up and down shift relays), 7-segment port P4OUT, the
    two confirmation flags set by the PORT6 interrupt handler and consumed by
    the main loop, and the displayed gear index.  The lightstrip path (rpm,
    ledsON, SPI output) is modelled separately as pure byte-emission functions
    since it reads and writes none of these fields. -/
structure SysState where
  p8out : Nat
  p4out : Nat
  up_flag : Bool
  down_flag : Bool
  gearIndex : Nat
deriving DecidableEq

/-- State after pinInit: P4OUT and the relay bits of P8OUT cleared (main.c
    lines 146 and 168), flags false and gearIndex = 1 (main.c lines 50-54). -/
def initSys : SysState :=
  { p8out := 0, p4out := 0, up_flag := false, down_flag := false, gearIndex := 1 }

/-- PORT6_IRQHandler (main.c lines 322-346).  Takes the pending-interrupt
    register P6IFG as set by the hardware and the current state; returns the
    new state together with the new value of P6IFG.  BIT0 = up paddle,
    BIT1 = down paddle, BIT4 = up hall effect, BIT5 = down hall effect; the
    final statement P6IFG &= ~0xFF clears every pending line. -/
def PORT6_IRQHandler (ifg : Nat) (s : SysState) : SysState × Nat :=
  let s' :=
    if ifg.testBit 0 then
      -- up paddle: P8OUT |= BIT4 (up relay on); P8OUT &= ~BIT5 (down relay off)
      { s with p8out := (s.p8out ||| 0x10) &&& (255 ^^^ 0x20) }
    else if ifg.testBit 1 then
      -- down paddle: P8OUT |= BIT5 (down relay on); P8OUT &= ~BIT4 (up relay off)
      { s with p8out := (s.p8out ||| 0x20) &&& (255 ^^^ 0x10) }
    else if ifg.testBit 4 then
      -- up hall effect: P8OUT &= ~0x30 (all relays off); up_flag = 1
      { s with p8out := s.p8out &&& (255 ^^^ 0x30), up_flag := true }
    else if ifg.testBit 5 then
      -- down hall effect: P8OUT &= ~0x30 (all relays off); down_flag = 1
      { s with p8out := s.p8out &&& (255 ^^^ 0x30), down_flag := true }
    else s
  (s', ifg &&& (255 ^^^ 0xFF))

/-- Net effect on the 7-segment port of the two statements
    P4OUT |= gearON[g]; P4OUT &= ~gearOFF[g] (main.c lines 92-93 and 98-99). -/
def applyGearMasks (port g : Nat) : Nat :=
  (port ||| gearON.getD g 0) &&& (255 ^^^ gearOFF.getD g 0)

/-- One iteration of the gear-handling part of the main while loop (main.c
    lines 90-101): an up confirmation flag with gearIndex < 6 increments the
    gear, prints it and clears the flag; else a down confirmation flag with
    gearIndex > 1 decrements, prints and clears.  The LSflag branch at lines
    86-89 calls rpmtoLS, which touches none of these fields and is modelled
    below as a pure emission function. -/
def mainLoopIter (s : SysState) : SysState :=
  if s.up_flag = true ∧ s.gearIndex < 6 then
    { s with gearIndex := s.gearIndex + 1,
             p4out := applyGearMasks s.p4out (s.gearIndex + 1),
             up_flag := false }
  else if s.down_flag = true ∧ s.gearIndex > 1 then
    { s with gearIndex := s.gearIndex - 1,
             p4out := applyGearMasks s.p4out (s.gearIndex - 1),
             down_flag := false }
  else s

/-- An event of the combined system: either the PORT6 interrupt fires with a
    given P6IFG value, or the main loop performs one iteration. -/
inductive SysEvent
  | irq (ifg : Nat)
  | loop
deriving DecidableEq

/-- One step of the combined system. -/
def sysStep : SysEvent → SysState → SysState
  | SysEvent.irq ifg, s => (PORT6_IRQHandler ifg s).1
  | SysEvent.loop, s => mainLoopIter s

/-- Run the system from the initial state over a list of events. -/
def runSys (evs : List SysEvent) : SysState :=
  evs.foldl (fun s e => sysStep e s) initSys

/-- Abstraction of the relay output port to the three relay states of the
    spec, plus the forbidden both-engaged configuration. -/
inductive RelayState
  | idle
  | upEngaged
  | downEngaged
  | bothEngaged
deriving DecidableEq

/-- Read the relay state off bits 4 (up relay) and 5 (down relay) of P8OUT. -/
def relayOf (p8 : Nat) : RelayState :=
  match p8.testBit 4, p8.testBit 5 with
  | false, false => RelayState.idle
  | true,  false => RelayState.upEngaged
  | false, true  => RelayState.downEngaged
  | true,  true  => RelayState.bothEngaged

/-- sendLS_START (main.c lines 240-246): the four all-zero bytes of the
    lightstrip start frame, in emission order. -/
def sendLS_START : List Nat := [0, 0, 0, 0]

/-- sendLS (main.c lines 248-254): one LED frame, bytes in emission order:
    brightness-field byte 224 + BRIGHTNESS, then blue, green, red. -/
def sendLS (red green blue : Nat) : List Nat :=
  [224 + BRIGHTNESS, blue, green, red]

/-- Body of the clearLS loop (main.c lines 260-266): the loop runs for
    i = 0 to NUM_LEDS inclusive, so n iterations here means n frames of
    bytes 224, 0, 0, 0. -/
def clearLoop : Nat → List Nat
  | 0 => []
  | n + 1 => [224, 0, 0, 0] ++ clearLoop n

/-- clearLS (main.c lines 256-267): start frame, then the loop
    for i = 0; i <= NUM_LEDS; i++ emitting NUM_LEDS + 1 zero-color frames. -/
def clearLS : List Nat := sendLS_START ++ clearLoop (NUM_LEDS + 1)

/-- The lightstrip color table as loaded by the startup for loop (main.c
    lines 66-82): entry i is the (red, green, blue) triple stored in
    lightstrip[i][0..2]: green for i < 18, yellow for 18 <= i < 24, red above. -/
def lightstrip : List (Nat × Nat × Nat) :=
  (List.range NUM_LEDS).map (fun i =>
    if i < NUM_GREEN_LEDS then (0, 255, 0)
    else if i < NUM_GREEN_LEDS + NUM_YELLOW_LEDS then (255, 255, 0)
    else (255, 0, 0))

/-- The call sendLS(c[0], c[1], c[2]) for a color-table entry c. -/
def sendFrame (c : Nat × Nat × Nat) : List Nat := sendLS c.1 c.2.1 c.2.2

/-- The rpm computation at the top of rpmtoLS (main.c lines 271-276).
    The C code computes (750000.0 * 60.0) / ((float)t * 8.0) in double
    precision and casts to uint16_t.  All operands (45000000 and 8 * t for
    t < 65536) are exactly representable doubles, and the rounding error of
    the one division (at most one ulp, smaller than 2 to the minus 29 for
    quotients below 2 to the 23) is smaller than the gap 1 / (8 * t) between
    the exact quotient and any integer it does not hit exactly, so the
    truncating cast yields exactly the floor of the exact quotient, here
    natural-number division.  The cast of an out-of-range double (t < 86) is
    undefined behaviour in C; it is modelled as reduction mod 2 to the 16. -/
def rpmOf (rpmCaptureValue : Nat) : Nat :=
  if rpmCaptureValue = 0 then 0
  else (45000000 / (8 * rpmCaptureValue)) % 65536

/-- ledsON = (rpm * NUM_LEDS) / (MAX_RPM - 1500) (main.c line 278); the
    intermediate product stays far below the int range, and the quotient
    (at most 187) fits the uint8_t ledsON, so plain division is exact. -/
def ledsONof (rpm : Nat) : Nat := (rpm * NUM_LEDS) / (MAX_RPM - 1500)

/-- The byte stream emitted by the rendering part of rpmtoLS (main.c lines
    278-304) for a given rpm value and flash flag: always clearLS first; then
    in the shift zone (ledsON > NUM_LEDS) either start frame plus NUM_LEDS red
    frames (flash flag on) or a second clearLS (flash flag off); otherwise
    start frame plus one frame per lit LED taken from the color table. -/
def renderLS (rpm : Nat) (LSflash_flag : Bool) : List Nat :=
  let ledsON := ledsONof rpm
  clearLS ++
    (if ledsON > NUM_LEDS then
      if LSflash_flag then
        sendLS_START ++ (List.replicate NUM_LEDS (sendLS 255 0 0)).flatten
      else clearLS
    else
      sendLS_START ++ ((lightstrip.take ledsON).map sendFrame).flatten)

/-- rpmtoLS (main.c lines 269-304) as a whole: compute rpm from the capture
    value, then emit the render stream. -/
def rpmtoLS (rpmCaptureValue : Nat) (LSflash_flag : Bool) : List Nat :=
  renderLS (rpmOf rpmCaptureValue) LSflash_flag

/-- SK9822 strip semantics for a byte stream, as described by the datasheet
    framing the driver follows: the strip state maps an LED position to its
    latched (red, green, blue) color; bytes are consumed four at a time; a
    frame starting with a zero byte is a start frame and resets the write
    pointer to position 0; any other frame is an LED frame carrying
    (header, blue, green, red) and latches the color at the current position,
    advancing the pointer.  Positions at or beyond the physical strip length
    simply never show, so the state is total over Nat. -/
def interpBytes (f : Nat → Nat × Nat × Nat) (p : Nat) : List Nat → (Nat → Nat × Nat × Nat)
  | b0 :: b1 :: b2 :: b3 :: rest =>
      if b0 = 0 then interpBytes f 0 rest
      else interpBytes (fun i => if i = p then (b3, b2, b1) else f i) (p + 1) rest
  | _ => f

/-- Modelled from the spec (section 4.2): the rounded-to-nearest conversion
    the claim text describes, floor of (F * 60) / (t * P) + one half, for
    comparison with the truncating conversion the code performs. -/
def rpmSpecRounded (t : Nat) : Nat := (45000000 + 4 * t) / (8 * t)

/-- Modelled from the spec (sections 4.5 and the claim on clearing): the clear
    stream the claim describes, a start frame followed by exactly NUM_LEDS
    per-LED frames of brightness-field byte and zero color, for comparison
    with the stream the code emits. -/
def clearLS_spec : List Nat :=
  sendLS_START ++ (List.replicate NUM_LEDS [224, 0, 0, 0]).flatten

/- ------------------------------------------------------------------ -/
/- Helper lemmas.                                                      -/
/- ------------------------------------------------------------------ -/

theorem list_getD_replicate {α : Type} (n i : Nat) (c d : α) (h : i < n) :
    (List.replicate n c).getD i d = c := by
  induction n generalizing i with
  | zero => omega
  | succ n ih =>
    cases i with
    | zero => rfl
    | succ i =>
      have hh : i < n := by omega
      exact ih i hh

theorem list_getD_take {α : Type} (l : List α) (n i : Nat) (d : α) (h : i < n) :
    (l.take n).getD i d = l.getD i d := by
  simp [List.getD, List.getElem?_take, h]

theorem interpBytes_nil (f : Nat → Nat × Nat × Nat) (p : Nat) :
    interpBytes f p [] = f := rfl

theorem interpBytes_start (f : Nat → Nat × Nat × Nat) (p : Nat) (rest : List Nat) :
    interpBytes f p (0 :: 0 :: 0 :: 0 :: rest) = interpBytes f 0 rest := by
  simp [interpBytes]

theorem interpBytes_led (f : Nat → Nat × Nat × Nat) (p b0 b1 b2 b3 : Nat)
    (rest : List Nat) (h : b0 ≠ 0) :
    interpBytes f p (b0 :: b1 :: b2 :: b3 :: rest) =
      interpBytes (fun i => if i = p then (b3, b2, b1) else f i) (p + 1) rest := by
  simp [interpBytes, h]

theorem interpBytes_clearLoop (n : Nat) :
    ∀ (f : Nat → Nat × Nat × Nat) (p : Nat) (rest : List Nat),
      interpBytes f p (clearLoop n ++ rest) =
        interpBytes (fun i => if p ≤ i ∧ i < p + n then (0, 0, 0) else f i) (p + n) rest := by
  induction n with
  | zero =>
    intro f p rest
    have hf : (fun i => if p ≤ i ∧ i < p + 0 then ((0 : Nat), (0 : Nat), (0 : Nat)) else f i) = f := by
      funext i
      rw [if_neg (by omega)]
    rw [clearLoop, List.nil_append, hf, Nat.add_zero]
  | succ n ih =>
    intro f p rest
    have hsh : clearLoop (n + 1) ++ rest =
        224 :: 0 :: 0 :: 0 :: (clearLoop n ++ rest) := by
      rw [clearLoop]
      simp
    rw [hsh, interpBytes_led f p 224 0 0 0 (clearLoop n ++ rest) (by decide), ih]
    have hf : (fun i => if p + 1 ≤ i ∧ i < p + 1 + n then ((0 : Nat), (0 : Nat), (0 : Nat))
                else if i = p then ((0 : Nat), (0 : Nat), (0 : Nat)) else f i) =
        (fun i => if p ≤ i ∧ i < p + (n + 1) then ((0 : Nat), (0 : Nat), (0 : Nat)) else f i) := by
      funext i
      split_ifs <;> first | rfl | omega
    rw [hf]
    have hp : p + 1 + n = p + (n + 1) := by omega
    rw [hp]

theorem interpBytes_colorList (cs : List (Nat × Nat × Nat)) :
    ∀ (f : Nat → Nat × Nat × Nat) (p : Nat) (rest : List Nat),
      interpBytes f p ((cs.map sendFrame).flatten ++ rest) =
        interpBytes
          (fun i => if p ≤ i ∧ i < p + cs.length then cs.getD (i - p) (0, 0, 0) else f i)
          (p + cs.length) rest := by
  induction cs with
  | nil =>
    intro f p rest
    simp only [List.map_nil, List.flatten_nil, List.nil_append, List.length_nil, Nat.add_zero]
    have hf : (fun i => if p ≤ i ∧ i < p then
                  List.getD ([] : List (Nat × Nat × Nat)) (i - p) (0, 0, 0) else f i) = f := by
      funext i
      rw [if_neg (by omega)]
    rw [hf]
  | cons c cs ih =>
    intro f p rest
    have hfr : ((c :: cs).map sendFrame).flatten ++ rest =
        (224 + BRIGHTNESS) :: c.2.2 :: c.2.1 :: c.1 :: ((cs.map sendFrame).flatten ++ rest) := by
      simp [sendFrame, sendLS]
    rw [hfr,
      interpBytes_led f p (224 + BRIGHTNESS) c.2.2 c.2.1 c.1
        ((cs.map sendFrame).flatten ++ rest) (by decide), ih]
    have hf : (fun i => if p + 1 ≤ i ∧ i < p + 1 + cs.length then
                  cs.getD (i - (p + 1)) ((0 : Nat), (0 : Nat), (0 : Nat))
                else if i = p then (c.1, c.2.1, c.2.2) else f i) =
        (fun i => if p ≤ i ∧ i < p + (c :: cs).length then
            (c :: cs).getD (i - p) ((0 : Nat), (0 : Nat), (0 : Nat)) else f i) := by
      funext i
      by_cases h1 : p + 1 ≤ i ∧ i < p + 1 + cs.length
      · rw [if_pos h1, if_pos (by simp; omega)]
        have hip : i - p = (i - (p + 1)) + 1 := by omega
        rw [hip]
        rfl
      · by_cases h2 : i = p
        · rw [if_neg h1, if_pos h2, if_pos (by simp; omega)]
          rw [h2]
          simp
        · rw [if_neg h1, if_neg h2, if_neg (by simp; omega)]
    rw [hf]
    have hp : p + 1 + cs.length = p + (c :: cs).length := by simp; omega
    rw [hp]

theorem interpBytes_startF (f : Nat → Nat × Nat × Nat) (p : Nat) (rest : List Nat) :
    interpBytes f p (sendLS_START ++ rest) = interpBytes f 0 rest :=
  interpBytes_start f p rest

theorem interpBytes_colorList_nil (cs : List (Nat × Nat × Nat))
    (f : Nat → Nat × Nat × Nat) (p : Nat) :
    interpBytes f p ((cs.map sendFrame).flatten) =
      (fun i => if p ≤ i ∧ i < p + cs.length then cs.getD (i - p) (0, 0, 0) else f i) := by
  have h := interpBytes_colorList cs f p []
  rw [List.append_nil] at h
  rw [h, interpBytes_nil]

theorem interpBytes_clearLS (f : Nat → Nat × Nat × Nat) (p : Nat) (rest : List Nat) :
    interpBytes f p (clearLS ++ rest) =
      interpBytes (fun i => if i < NUM_LEDS + 1 then (0, 0, 0) else f i) (NUM_LEDS + 1) rest := by
  rw [clearLS, sendLS_START, List.append_assoc, List.cons_append, List.cons_append,
    List.cons_append, List.cons_append, List.nil_append, interpBytes_start,
    interpBytes_clearLoop]
  have hf : (fun i => if 0 ≤ i ∧ i < 0 + (NUM_LEDS + 1) then ((0 : Nat), (0 : Nat), (0 : Nat)) else f i) =
      (fun i => if i < NUM_LEDS + 1 then ((0 : Nat), (0 : Nat), (0 : Nat)) else f i) := by
    funext i
    split_ifs <;> first | rfl | omega
  rw [hf]
  have hp : 0 + (NUM_LEDS + 1) = NUM_LEDS + 1 := by omega
  rw [hp]

theorem interpBytes_clearLS_nil (f : Nat → Nat × Nat × Nat) (p : Nat) :
    interpBytes f p clearLS =
      (fun i => if i < NUM_LEDS + 1 then (0, 0, 0) else f i) := by
  have h := interpBytes_clearLS f p []
  rw [List.append_nil] at h
  rw [h, interpBytes_nil]

theorem lightstrip_length : lightstrip.length = NUM_LEDS := by
  simp [lightstrip]

/- Relay bit computations shared by the interlock claims. -/

theorem upSet_bit4 (p : Nat) : ((p ||| 0x10) &&& (255 ^^^ 0x20)).testBit 4 = true := by
  rw [Nat.testBit_land, Nat.testBit_lor]
  have e1 : Nat.testBit 0x10 4 = true := by decide
  have e2 : Nat.testBit (255 ^^^ 0x20) 4 = true := by decide
  rw [e1, e2]
  simp

theorem upSet_bit5 (p : Nat) : ((p ||| 0x10) &&& (255 ^^^ 0x20)).testBit 5 = false := by
  rw [Nat.testBit_land]
  have e2 : Nat.testBit (255 ^^^ 0x20) 5 = false := by decide
  rw [e2]
  simp

theorem downSet_bit4 (p : Nat) : ((p ||| 0x20) &&& (255 ^^^ 0x10)).testBit 4 = false := by
  rw [Nat.testBit_land]
  have e2 : Nat.testBit (255 ^^^ 0x10) 4 = false := by decide
  rw [e2]
  simp

theorem downSet_bit5 (p : Nat) : ((p ||| 0x20) &&& (255 ^^^ 0x10)).testBit 5 = true := by
  rw [Nat.testBit_land, Nat.testBit_lor]
  have e1 : Nat.testBit 0x20 5 = true := by decide
  have e2 : Nat.testBit (255 ^^^ 0x10) 5 = true := by decide
  rw [e1, e2]
  simp

theorem allOff_bit4 (p : Nat) : (p &&& (255 ^^^ 0x30)).testBit 4 = false := by
  rw [Nat.testBit_land]
  have e2 : Nat.testBit (255 ^^^ 0x30) 4 = false := by decide
  rw [e2]
  simp

theorem allOff_bit5 (p : Nat) : (p &&& (255 ^^^ 0x30)).testBit 5 = false := by
  rw [Nat.testBit_land]
  have e2 : Nat.testBit (255 ^^^ 0x30) 5 = false := by decide
  rw [e2]
  simp

theorem relay_upSet (p : Nat) :
    relayOf ((p ||| 0x10) &&& (255 ^^^ 0x20)) = RelayState.upEngaged := by
  unfold relayOf
  rw [upSet_bit4, upSet_bit5]

theorem relay_downSet (p : Nat) :
    relayOf ((p ||| 0x20) &&& (255 ^^^ 0x10)) = RelayState.downEngaged := by
  unfold relayOf
  rw [downSet_bit4, downSet_bit5]

theorem relay_allOff (p : Nat) :
    relayOf (p &&& (255 ^^^ 0x30)) = RelayState.idle := by
  unfold relayOf
  rw [allOff_bit4, allOff_bit5]

/- Frame lemmas: which state fields each transition reads and writes. -/

theorem PORT6_p8out (ifg : Nat) (s : SysState) :
    (PORT6_IRQHandler ifg s).1.p8out =
      if ifg.testBit 0 then (s.p8out ||| 0x10) &&& (255 ^^^ 0x20)
      else if ifg.testBit 1 then (s.p8out ||| 0x20) &&& (255 ^^^ 0x10)
      else if ifg.testBit 4 then s.p8out &&& (255 ^^^ 0x30)
      else if ifg.testBit 5 then s.p8out &&& (255 ^^^ 0x30)
      else s.p8out := by
  simp only [PORT6_IRQHandler]
  split_ifs <;> rfl

theorem PORT6_gear (ifg : Nat) (s : SysState) :
    (PORT6_IRQHandler ifg s).1.gearIndex = s.gearIndex := by
  simp only [PORT6_IRQHandler]
  split_ifs <;> rfl

theorem mainLoopIter_gear (s : SysState) :
    (mainLoopIter s).gearIndex =
      if s.up_flag = true ∧ s.gearIndex < 6 then s.gearIndex + 1
      else if s.down_flag = true ∧ s.gearIndex > 1 then s.gearIndex - 1
      else s.gearIndex := by
  unfold mainLoopIter
  split_ifs <;> rfl

theorem mainLoopIter_p8out (s : SysState) :
    (mainLoopIter s).p8out = s.p8out := by
  unfold mainLoopIter
  split_ifs <;> rfl

theorem foldl_sysStep_inv {P : SysState → Prop}
    (hstep : ∀ (e : SysEvent) (s : SysState), P s → P (sysStep e s)) :
    ∀ (evs : List SysEvent) (s : SysState),
      P s → P (evs.foldl (fun s e => sysStep e s) s) := by
  intro evs
  induction evs with
  | nil => intro s h; exact h
  | cons e evs ih => intro s h; exact ih (sysStep e s) (hstep e s h)

/-- If the on and off masks are bitwise complementary within a byte, then
    OR-ing the on mask and AND-ing the complement of the off mask forces the
    port to exactly the on mask, whatever it held before. -/
theorem mask_update (onm offm : Nat) (p : Nat)
    (h1 : onm ||| offm = 255) (h2 : onm &&& offm = 0) :
    (p ||| onm) &&& (255 ^^^ offm) = onm := by
  apply Nat.eq_of_testBit_eq
  intro i
  have h1' : (onm.testBit i || offm.testBit i) = Nat.testBit 255 i := by
    rw [← Nat.testBit_lor, h1]
  have h2' : (onm.testBit i && offm.testBit i) = false := by
    rw [← Nat.testBit_land, h2, Nat.zero_testBit]
  rw [Nat.testBit_land, Nat.testBit_lor, Nat.testBit_xor]
  cases hon : onm.testBit i <;> cases hoff : offm.testBit i <;> simp_all

/- ------------------------------------------------------------------ -/
/- Claim theorems.                                                     -/
/- ------------------------------------------------------------------ -/

/-- C1 (counterexample): the claim says that from an engaged relay state only
    the MATCHING hall-sensor confirmation returns the relay state to Idle, but
    from the up-engaged state (P8OUT bit 4 set) the DOWN hall-sensor edge
    (P6IFG = BIT5 = 0x20) also disengages all relays and returns to Idle,
    because both hall branches execute P8OUT and-equals not-0x30. -/
theorem interlock_nonmatching_confirmation_counterexample :
    relayOf (({ initSys with p8out := 0x10 } : SysState).p8out) = RelayState.upEngaged ∧
    relayOf ((PORT6_IRQHandler 0x20 { initSys with p8out := 0x10 }).1.p8out) =
      RelayState.idle := by
  decide

/-- C1 (amended): characterization of the relay step on the four single-line
    edge events.  A paddle edge always moves to that paddle's engaged state
    (so from Idle only paddle edges cause a relay transition), and EITHER
    hall-sensor confirmation, matching or not, drives the relay state to Idle
    from any state, engaged states included. -/
theorem interlock_relay_step_transitions :
    (∀ s : SysState,
        relayOf ((PORT6_IRQHandler 0x01 s).1.p8out) = RelayState.upEngaged) ∧
    (∀ s : SysState,
        relayOf ((PORT6_IRQHandler 0x02 s).1.p8out) = RelayState.downEngaged) ∧
    (∀ s : SysState,
        relayOf ((PORT6_IRQHandler 0x10 s).1.p8out) = RelayState.idle) ∧
    (∀ s : SysState,
        relayOf ((PORT6_IRQHandler 0x20 s).1.p8out) = RelayState.idle) := by
  refine ⟨fun s => ?_, fun s => ?_, fun s => ?_, fun s => ?_⟩
  · rw [PORT6_p8out, if_pos (by decide : Nat.testBit 0x01 0 = true)]
    exact relay_upSet s.p8out
  · rw [PORT6_p8out, if_neg (by decide : ¬Nat.testBit 0x02 0 = true),
      if_pos (by decide : Nat.testBit 0x02 1 = true)]
    exact relay_downSet s.p8out
  · rw [PORT6_p8out, if_neg (by decide : ¬Nat.testBit 0x10 0 = true),
      if_neg (by decide : ¬Nat.testBit 0x10 1 = true),
      if_pos (by decide : Nat.testBit 0x10 4 = true)]
    exact relay_allOff s.p8out
  · rw [PORT6_p8out, if_neg (by decide : ¬Nat.testBit 0x20 0 = true),
      if_neg (by decide : ¬Nat.testBit 0x20 1 = true),
      if_neg (by decide : ¬Nat.testBit 0x20 4 = true),
      if_pos (by decide : Nat.testBit 0x20 5 = true)]
    exact relay_allOff s.p8out

/-- C2: over every sequence of interrupt and main-loop events from the initial
    state, gearIndex stays within 1..6; every single step changes it by at
    most one; the PORT6 interrupt handler (paddle pulls and hall edges alike)
    never changes it directly; and a main-loop iteration with neither
    confirmation flag set leaves it unchanged, so a paddle pull alone never
    moves the displayed gear. -/
theorem gearIndex_bounded_and_confirmation_driven :
    (∀ evs : List SysEvent,
        1 ≤ (runSys evs).gearIndex ∧ (runSys evs).gearIndex ≤ 6) ∧
    (∀ (e : SysEvent) (s : SysState),
        (sysStep e s).gearIndex ≤ s.gearIndex + 1 ∧
        s.gearIndex ≤ (sysStep e s).gearIndex + 1) ∧
    (∀ (ifg : Nat) (s : SysState),
        (sysStep (SysEvent.irq ifg) s).gearIndex = s.gearIndex) ∧
    (∀ s : SysState, s.up_flag = false → s.down_flag = false →
        (sysStep SysEvent.loop s).gearIndex = s.gearIndex) := by
  have hirq : ∀ (ifg : Nat) (s : SysState),
      (sysStep (SysEvent.irq ifg) s).gearIndex = s.gearIndex := by
    intro ifg s
    simp only [sysStep]
    exact PORT6_gear ifg s
  refine ⟨?_, ?_, hirq, ?_⟩
  · intro evs
    refine foldl_sysStep_inv (P := fun s => 1 ≤ s.gearIndex ∧ s.gearIndex ≤ 6) ?_ evs initSys ?_
    · intro e s h
      cases e with
      | irq ifg => rw [hirq]; exact h
      | loop =>
        simp only [sysStep, mainLoopIter_gear]
        split_ifs <;> omega
    · exact ⟨by decide, by decide⟩
  · intro e s
    cases e with
    | irq ifg => rw [hirq]; omega
    | loop =>
      simp only [sysStep, mainLoopIter_gear]
      split_ifs <;> omega
  · intro s h1 h2
    simp only [sysStep, mainLoopIter_gear, h1, h2]
    simp

/-- C2 (witness): the bounds hold after a concrete run, and a loop iteration
    from the initial state, whose flags are clear, leaves the gear at 1. -/
theorem gearIndex_bounded_witness :
    (1 ≤ (runSys [SysEvent.irq 0x10, SysEvent.loop]).gearIndex ∧
      (runSys [SysEvent.irq 0x10, SysEvent.loop]).gearIndex ≤ 6) ∧
    (sysStep SysEvent.loop initSys).gearIndex = initSys.gearIndex :=
  ⟨gearIndex_bounded_and_confirmation_driven.1 [SysEvent.irq 0x10, SysEvent.loop],
   gearIndex_bounded_and_confirmation_driven.2.2.2 initSys rfl rfl⟩

/-- C3: in every state reachable from the initial all-off state by any
    sequence of interrupt and main-loop events, the up relay (P8OUT bit 4)
    and the down relay (P8OUT bit 5) are never both engaged. -/
theorem relay_mutual_exclusion :
    ∀ evs : List SysEvent,
      ((runSys evs).p8out.testBit 4 && (runSys evs).p8out.testBit 5) = false := by
  intro evs
  refine foldl_sysStep_inv
    (P := fun s => (s.p8out.testBit 4 && s.p8out.testBit 5) = false) ?_ evs initSys (by decide)
  intro e s h
  cases e with
  | irq ifg =>
    simp only [sysStep]
    rw [PORT6_p8out]
    split_ifs
    · rw [upSet_bit5]
      simp
    · rw [downSet_bit4]
      simp
    · rw [allOff_bit4]
      simp
    · rw [allOff_bit4]
      simp
    · exact h
  | loop =>
    simp only [sysStep]
    rw [mainLoopIter_p8out]
    exact h

/-- C4 (counterexample): at tick count t = 86 the code yields 65406 while the
    nearest integer to (750000 * 60) / (86 * 8) is 65407 (the exact quotient
    is 672 / 688 above 65406 but only 16 / 688 below 65407): the conversion
    truncates, it does not round to nearest. -/
theorem rpm_truncation_counterexample :
    rpmOf 86 = 65406 ∧ rpmSpecRounded 86 = 65407 ∧
    45000000 - 65406 * (8 * 86) = 672 ∧ 65407 * (8 * 86) - 45000000 = 16 := by
  decide

/-- C4 (amended): the conversion yields 0 for a zero tick count, and for every
    tick count of at least 86 (those whose quotient fits the 16-bit result)
    it yields (750000 * 60) / (t * 8) rounded DOWN, i.e. the floor of the
    exact quotient, not the nearest integer. -/
theorem rpmOf_zero_and_floor :
    rpmOf 0 = 0 ∧ ∀ t : Nat, 86 ≤ t → rpmOf t = 45000000 / (8 * t) := by
  constructor
  · rfl
  · intro t ht
    unfold rpmOf
    rw [if_neg (by omega)]
    apply Nat.mod_eq_of_lt
    have h1 : 45000000 / (8 * t) ≤ 45000000 / (8 * 86) :=
      Nat.div_le_div_left (by omega) (by omega)
    have h2 : (45000000 : Nat) / (8 * 86) = 65406 := by decide
    omega

/-- C4 (witness): the floor characterization applied at t = 100. -/
theorem rpmOf_floor_witness : rpmOf 100 = 56250 := by
  have h := rpmOf_zero_and_floor.2 100 (by decide)
  rw [h]

/-- C7 (counterexample): an up confirmation arriving at gearIndex = 6 is NOT
    without later effect.  First run: five confirmed upshifts reach gear 6,
    then an up paddle pull and up confirmation at gear 6 (ignored for now,
    but up_flag stays set because the loop only clears it inside the taken
    branch), then a down confirmation: the loop drops the gear to 5 and the
    stale up_flag immediately pushes it back to 6.  Second run: the same
    sequence without the boundary request ends at gear 5. -/
theorem boundary_request_later_effect_counterexample :
    (runSys [SysEvent.irq 0x10, SysEvent.loop, SysEvent.irq 0x10, SysEvent.loop,
      SysEvent.irq 0x10, SysEvent.loop, SysEvent.irq 0x10, SysEvent.loop,
      SysEvent.irq 0x10, SysEvent.loop,
      SysEvent.irq 0x01, SysEvent.irq 0x10, SysEvent.loop,
      SysEvent.irq 0x20, SysEvent.loop, SysEvent.loop]).gearIndex = 6 ∧
    (runSys [SysEvent.irq 0x10, SysEvent.loop, SysEvent.irq 0x10, SysEvent.loop,
      SysEvent.irq 0x10, SysEvent.loop, SysEvent.irq 0x10, SysEvent.loop,
      SysEvent.irq 0x10, SysEvent.loop,
      SysEvent.irq 0x20, SysEvent.loop, SysEvent.loop]).gearIndex = 5 := by
  decide

/-- C7 (amended): at a boundary the confirmed shift request is ignored at the
    moment it is processed: at gearIndex 6 with no pending down confirmation
    the loop iteration changes nothing at all (so no wraparound, and the gear
    stays 6; symmetrically at gearIndex 1) — but precisely because nothing
    changes, a pending flag is NOT cleared: it stays set and increments the
    gear at the first iteration where gearIndex is below 6 again, so the
    request is deferred rather than discarded. -/
theorem boundary_shift_request_deferred :
    (∀ s : SysState, s.gearIndex = 6 → s.down_flag = false → mainLoopIter s = s) ∧
    (∀ s : SysState, s.gearIndex = 1 → s.up_flag = false → mainLoopIter s = s) ∧
    (∀ s : SysState, s.up_flag = true → s.gearIndex < 6 →
        (mainLoopIter s).gearIndex = s.gearIndex + 1 ∧ (mainLoopIter s).up_flag = false) := by
  refine ⟨?_, ?_, ?_⟩
  · intro s h6 hd
    unfold mainLoopIter
    rw [if_neg (by omega), if_neg (by simp [hd])]
  · intro s h1 hu
    unfold mainLoopIter
    rw [if_neg (by simp [hu]), if_neg (by omega)]
  · intro s hu hl
    unfold mainLoopIter
    rw [if_pos ⟨hu, hl⟩]
    exact ⟨rfl, rfl⟩

/-- C7 (witness): the boundary clamp at a concrete state with gear 6 and a
    pending up flag, and the deferred increment at a concrete state with
    gear 3 and a pending up flag. -/
theorem boundary_shift_request_witness :
    mainLoopIter { p8out := 0, p4out := 0, up_flag := true, down_flag := false, gearIndex := 6 } =
      { p8out := 0, p4out := 0, up_flag := true, down_flag := false, gearIndex := 6 } ∧
    (mainLoopIter { p8out := 0, p4out := 0, up_flag := true, down_flag := false, gearIndex := 3 }).gearIndex = 4 :=
  ⟨boundary_shift_request_deferred.1 _ rfl rfl,
   (boundary_shift_request_deferred.2.2 _ rfl (by decide)).1⟩

/-- C9: with the up-paddle line (bit 0) and the up-hall line (bit 4) both
    pending in P6IFG = 0x11, the handler services only the paddle branch (the
    relay engages, the up confirmation flag stays false) yet leaves P6IFG = 0:
    the final P6IFG and-equals not-0xFF clears the unserviced hall line's
    pending indication too, masking the simultaneously pending confirmation. -/
theorem port6_clear_all_masks_pending :
    Nat.testBit 0x11 4 = true ∧
    (PORT6_IRQHandler 0x11 initSys).1.up_flag = false ∧
    relayOf ((PORT6_IRQHandler 0x11 initSys).1.p8out) = RelayState.upEngaged ∧
    (PORT6_IRQHandler 0x11 initSys).2 = 0 := by
  decide

/-- C10: for every gear digit g in 0..9 the on and off masks are exact
    bitwise complements of each other within the byte, and consequently the
    7-segment update (OR the on mask, then AND the complement of the off
    mask) forces the port to exactly gearON[g] whatever it held before. -/
theorem gear_masks_complement_and_override :
    (∀ g : Nat, g < 10 →
        gearON.getD g 0 ||| gearOFF.getD g 0 = 255 ∧
        gearON.getD g 0 &&& gearOFF.getD g 0 = 0) ∧
    (∀ (p g : Nat), g < 10 → applyGearMasks p g = gearON.getD g 0) := by
  constructor
  · intro g hg
    interval_cases g <;> exact ⟨by decide, by decide⟩
  · intro p g hg
    interval_cases g <;> exact mask_update _ _ p (by decide) (by decide)

/-- C10 (witness): the complement facts and the override at digit 3 from a
    port previously holding 0xAB. -/
theorem gear_masks_witness :
    (gearON.getD 3 0 ||| gearOFF.getD 3 0 = 255 ∧
      gearON.getD 3 0 &&& gearOFF.getD 3 0 = 0) ∧
    applyGearMasks 0xAB 3 = gearON.getD 3 0 :=
  ⟨gear_masks_complement_and_override.1 3 (by decide),
   gear_masks_complement_and_override.2 0xAB 3 (by decide)⟩

/- Stream shapes of renderLS in its three branches, and pointwise forms of
   the interpreter lemmas. -/

theorem renderLS_flash_on (rpm : Nat) (h : ledsONof rpm > NUM_LEDS) :
    renderLS rpm true =
      clearLS ++ (sendLS_START ++ (List.replicate NUM_LEDS (sendLS 255 0 0)).flatten) := by
  unfold renderLS
  simp [h]

theorem renderLS_flash_off (rpm : Nat) (h : ledsONof rpm > NUM_LEDS) :
    renderLS rpm false = clearLS ++ clearLS := by
  unfold renderLS
  simp [h]

theorem renderLS_bar (rpm : Nat) (h : ¬ledsONof rpm > NUM_LEDS) (fl : Bool) :
    renderLS rpm fl =
      clearLS ++ (sendLS_START ++ ((lightstrip.take (ledsONof rpm)).map sendFrame).flatten) := by
  unfold renderLS
  simp [h]

theorem interpBytes_clearLS_apply (f : Nat → Nat × Nat × Nat) (p i : Nat) :
    interpBytes f p clearLS i = if i < NUM_LEDS + 1 then (0, 0, 0) else f i := by
  rw [interpBytes_clearLS_nil]

theorem interpBytes_colorList_apply (cs : List (Nat × Nat × Nat))
    (f : Nat → Nat × Nat × Nat) (p i : Nat) :
    interpBytes f p ((cs.map sendFrame).flatten) i =
      if p ≤ i ∧ i < p + cs.length then cs.getD (i - p) (0, 0, 0) else f i := by
  rw [interpBytes_colorList_nil]

/-- C8 (counterexample): the clear stream is not a start frame followed by
    exactly NUM_LEDS per-LED frames: the loop bound i <= NUM_LEDS makes it
    emit NUM_LEDS + 1 frames, 128 bytes instead of the 124 the claim implies. -/
theorem clearLS_frame_count_counterexample :
    clearLS ≠ clearLS_spec ∧ clearLS.length = 128 ∧ clearLS_spec.length = 124 := by
  decide

/-- C8 (amended): the clear stream is one start frame of four zero bytes
    followed by exactly NUM_LEDS + 1 per-LED frames, each carrying the
    brightness-field byte 224 and zero for all three color bytes. -/
theorem clearLS_stream_characterization :
    clearLS = [0, 0, 0, 0] ++ (List.replicate (NUM_LEDS + 1) [224, 0, 0, 0]).flatten ∧
    clearLS.length = 4 + 4 * (NUM_LEDS + 1) := by
  decide

/-- C5: for every speed whose computed litCount exceeds the strip length
    (the shift zone), the rendered strip state is all NUM_LEDS LEDs solid red
    when the flash phase is true and fully blank when it is false, whatever
    colors the strip held before — no intermediate mixed states. -/
theorem shift_zone_flash_all_or_nothing :
    ∀ (rpm : Nat) (f : Nat → Nat × Nat × Nat) (i : Nat),
      ledsONof rpm > NUM_LEDS → i < NUM_LEDS →
      interpBytes f 0 (renderLS rpm true) i = (255, 0, 0) ∧
      interpBytes f 0 (renderLS rpm false) i = (0, 0, 0) := by
  intro rpm f i hz hi
  constructor
  · rw [renderLS_flash_on rpm hz, interpBytes_clearLS, interpBytes_startF,
      show List.replicate NUM_LEDS (sendLS 255 0 0) =
        (List.replicate NUM_LEDS ((255, 0, 0) : Nat × Nat × Nat)).map sendFrame from by
          rw [List.map_replicate]
          rfl,
      interpBytes_colorList_apply]
    simp only [List.length_replicate]
    rw [if_pos ⟨Nat.zero_le i, by omega⟩, Nat.sub_zero]
    exact list_getD_replicate _ _ _ _ hi
  · rw [renderLS_flash_off rpm hz, interpBytes_clearLS, interpBytes_clearLS_apply]
    rw [if_pos (by omega)]

/-- C5 (witness): at rpm 11000 the computed litCount is 31 > 30; LED 0 is
    commanded red in the true phase and off in the false phase, from a strip
    previously holding an arbitrary color. -/
theorem shift_zone_flash_witness :
    interpBytes (fun _ => (9, 9, 9)) 0 (renderLS 11000 true) 0 = (255, 0, 0) ∧
    interpBytes (fun _ => (9, 9, 9)) 0 (renderLS 11000 false) 0 = (0, 0, 0) :=
  shift_zone_flash_all_or_nothing 11000 (fun _ => (9, 9, 9)) 0 (by decide) (by decide)

/-- C6: litCount is monotonically non-decreasing in speed; and below the
    shift threshold the render commands exactly the first litCount LEDs with
    the colors of the zone table at the same positions, every LED from
    litCount up to the strip end being commanded off even if it was lit
    before (no ghost LEDs from a previous longer bar). -/
theorem bar_graph_monotone_and_matches_table :
    (∀ s t : Nat, s ≤ t → ledsONof s ≤ ledsONof t) ∧
    (∀ (rpm : Nat) (fl : Bool) (f : Nat → Nat × Nat × Nat) (i : Nat),
      ledsONof rpm ≤ NUM_LEDS →
      (i < ledsONof rpm →
        interpBytes f 0 (renderLS rpm fl) i = lightstrip.getD i (0, 0, 0)) ∧
      (ledsONof rpm ≤ i → i < NUM_LEDS →
        interpBytes f 0 (renderLS rpm fl) i = (0, 0, 0))) := by
  constructor
  · intro s t h
    unfold ledsONof
    exact Nat.div_le_div_right (Nat.mul_le_mul_right NUM_LEDS h)
  · intro rpm fl f i hk
    rw [renderLS_bar rpm (by omega) fl, interpBytes_clearLS, interpBytes_startF,
      interpBytes_colorList_apply]
    simp only [List.length_take, lightstrip_length]
    constructor
    · intro hik
      rw [if_pos ⟨Nat.zero_le i, by omega⟩, Nat.sub_zero,
        list_getD_take _ _ _ _ hik]
    · intro hki hiN
      rw [if_neg (by omega)]
      show (if i < NUM_LEDS + 1 then ((0 : Nat), (0 : Nat), (0 : Nat)) else f i) = (0, 0, 0)
      rw [if_pos (by omega)]

/-- C6 (witness): at rpm 5000 the litCount is 14; LED 5 shows the table's
    green entry and LED 20 is off, from an arbitrary previous strip state. -/
theorem bar_graph_witness :
    interpBytes (fun _ => (9, 9, 9)) 0 (renderLS 5000 false) 5 = (0, 255, 0) ∧
    interpBytes (fun _ => (9, 9, 9)) 0 (renderLS 5000 false) 20 = (0, 0, 0) := by
  constructor
  · have h := ((bar_graph_monotone_and_matches_table.2 5000 false
      (fun _ => (9, 9, 9)) 5 (by decide)).1 (by decide))
    rw [h]
    decide
  · exact (bar_graph_monotone_and_matches_table.2 5000 false
      (fun _ => (9, 9, 9)) 20 (by decide)).2 (by decide) (by decide)
